import Mathlib

/-!
Verification development for the openresearch-mcp-server repository.

The embedding models the two core subsystems of the server:

* the tool Dispatcher (`src/server/mcp_server.py`, `AcademicMCPServer`):
  tool registry lookup, `call_tool` routing, the error boundary;
* the backend session / client (`src/clients/go_client.py`,
  `GoServiceClient`): the double-checked-lock `connect()` discipline,
  `_make_request` error translation, and the per-method response handling;
* the tool registry and tool classes (`src/mcp/tools/__init__.py` and the
  tool modules): the name to handler dispatch table, the listed tool
  definitions, and the `handle_tool_error` decorator
  (`src/utils/error_handler.py`).

Python's dynamic values (JSON data, argument dicts, protocol content
items) are embedded as the inductive type `Py`; raised exceptions are
embedded as `Except` errors.  Tool input schemas from the `Tool`
definitions are not modelled: no claim refers to them, only to the listed
names.  The Markdown formatting helpers of the tool classes are outside
the verified core (the spec excludes them); handlers are therefore
parametrised over the formatter functions, so all theorems about the
registry hold for every formatter.
-/

namespace OpenResearch

/-- Dynamic (Python-like) values: JSON data decoded from responses,
argument dictionaries, lists, and `TextContent` protocol objects.  A
`TextContent(type="text", text=t)` object is embedded as `Py.text t`
(every content item constructed in this codebase has `type="text"`). -/
inductive Py where
  | none
  | str (s : String)
  | int (n : Int)
  | bool (b : Bool)
  | list (xs : List Py)
  | dict (kvs : List (String × Py))
  | text (t : String)
  deriving Inhabited

/-- Lookup in an association list embedding of a Python dict
(keys are unique in every dict the code builds; lookup takes the first
binding). -/
def assocLookup {α : Type} : List (String × α) → String → Option α
  | [], _ => Option.none
  | (k2, v) :: rest, k => if k2 = k then some v else assocLookup rest k

/-- Python `d[k]` presence test. -/
def pyContainsKey (v : Py) (k : String) : Bool :=
  match v with
  | Py.dict kvs => (assocLookup kvs k).isSome
  | _ => false

/-- Python `d.get(k, default)` on an argument dict. -/
def pyGetD (kvs : List (String × Py)) (k : String) (d : Py) : Py :=
  (assocLookup kvs k).getD d

/-- Python `d.setdefault(k, v)`: keep the dict if `k` is bound, otherwise
append the binding at the end (Python dicts preserve insertion order). -/
def pySetdefault (kvs : List (String × Py)) (k : String) (d : Py) :
    List (String × Py) :=
  match assocLookup kvs k with
  | some _ => kvs
  | Option.none => kvs ++ [(k, d)]

/-- Python `d[k] = v`: replace the first binding of `k`, or append. -/
def pySet : List (String × Py) → String → Py → List (String × Py)
  | [], k, v => [(k, v)]
  | (k2, w) :: rest, k, v =>
      if k2 = k then (k, v) :: rest else (k2, w) :: pySet rest k v

section Dispatcher

/-- Result type of `AcademicMCPServer.call_tool`
(`mcp.types.CallToolResult`): the content payload and the error flag. -/
structure CallToolResult where
  content : Py
  isError : Bool

/-- A tool handler as stored in `AcademicMCPServer.tools`: it receives the
argument dict and either returns a value or raises (an exception whose
`str()` is the carried message). -/
abbrev Handler := List (String × Py) → Except String Py

/-- The dispatch table `self.tools` (name to handler, insertion order). -/
abbrev ToolTable := List (String × Handler)

/-- The key set `list(self.tools.keys())` in insertion order. -/
def tableKeys (tools : ToolTable) : List String := tools.map (·.1)

/-- Python `repr` of a string (the tool names never contain quotes). -/
def pyQuote (s : String) : String := "'" ++ s ++ "'"

/-- Interior of Python `repr` of a list of strings. -/
def pyReprItems : List String → String
  | [] => ""
  | [k] => pyQuote k
  | k :: rest => pyQuote k ++ ", " ++ pyReprItems rest

/-- Python `repr` of a list of strings, as f-string interpolation of
`list(self.tools.keys())` renders it. -/
def pyReprKeys (ks : List String) : String := "[" ++ pyReprItems ks ++ "]"

/-- The unknown-tool message built by `call_tool`
(`mcp_server.py` line 113). -/
def unknownToolMsg (name : String) (ks : List String) : String :=
  "Unknown tool: " ++ name ++ ". Available tools: " ++ pyReprKeys ks

/-- `AcademicMCPServer.call_tool` (`src/server/mcp_server.py` lines
100-145): resolve the name in `self.tools`; if absent return an error
result naming the tool and the available names; otherwise invoke the
handler, wrap a successful return value unchanged as the result content,
and convert a raised exception into an error result. -/
def call_tool (tools : ToolTable) (name : String)
    (args : List (String × Py)) : CallToolResult :=
  match assocLookup tools name with
  | Option.none =>
      { content := Py.list [Py.text (unknownToolMsg name (tableKeys tools))],
        isError := true }
  | some handler =>
      match handler args with
      | .ok result => { content := result, isError := false }
      | .error e =>
          { content := Py.list [Py.text ("Tool execution failed: " ++ e)],
            isError := true }

/-- Check whether a value is a list of typed content items (the uniform
representation the spec describes: a sequence of `TextContent`-like
items). -/
def isTypedContentList : Py → Bool
  | Py.list xs =>
      xs.all fun x => match x with | Py.text _ => true | _ => false
  | _ => false

end Dispatcher

section GoClient

/-- Error kinds the client layer can raise.  `serviceConnection` is
`ServiceConnectionError` from `src/utils/error_handler.py`; the remaining
constructors are the Python builtins the client code can raise
(`asyncio.TimeoutError` is included as a kind so that "timeout-kind
error" is expressible, even though `_make_request` converts it). -/
inductive GoErr where
  | serviceConnection (msg : String)
  | timeoutKind (msg : String)
  | valueErr (msg : String)
  | typeErr (msg : String)
  | attrErr (msg : String)
  deriving Repr, DecidableEq

/-- The Python exception class name of an error. -/
def GoErr.kind : GoErr → String
  | .serviceConnection _ => "ServiceConnectionError"
  | .timeoutKind _ => "TimeoutError"
  | .valueErr _ => "ValueError"
  | .typeErr _ => "TypeError"
  | .attrErr _ => "AttributeError"

/-- The kind of the error of a failed client call. -/
def errKindOf : Except GoErr Py → Option String
  | .error e => some e.kind
  | .ok _ => Option.none

/-- Outcome of one HTTP exchange as `_make_request` observes it: a
response (status, the text body read on failure status, and the outcome
of `response.json()`), a raised `aiohttp.ClientError`, or a raised
`asyncio.TimeoutError` when the configured deadline passed. -/
inductive HttpExchange where
  | response (status : Nat) (bodyText : String) (jsonBody : Except String Py)
  | clientError (msg : String)
  | timeout

/-- `GoServiceClient` as the request layer sees it: the configured base
URL and the network as an oracle from (method, endpoint, params) to the
exchange outcome.  Session management is modelled separately by the
`connect()` state machine below. -/
structure GoServiceClient where
  base_url : String
  http : String → String → List (String × Py) → HttpExchange

/-- `GoServiceClient._make_request` (`src/clients/go_client.py` lines
97-159): status 400 and above raises `ServiceConnectionError` carrying
the status and body text; a JSON decode failure raises
`ServiceConnectionError` with an "Invalid JSON response" message; a
client error raises `ServiceConnectionError` with an "HTTP client error"
message; a timeout raises `ServiceConnectionError` naming the URL.  On
success the decoded body is returned unchanged. -/
def GoServiceClient.make_request (c : GoServiceClient) (method : String)
    (endpoint : String) (params : List (String × Py)) : Except GoErr Py :=
  match c.http method endpoint params with
  | .response status bodyText jsonBody =>
      if 400 ≤ status then
        .error (GoErr.serviceConnection
          ("Go service request failed: " ++ toString status ++ " - " ++ bodyText))
      else
        match jsonBody with
        | .ok v => .ok v
        | .error e =>
            .error (GoErr.serviceConnection ("Invalid JSON response: " ++ e))
  | .clientError m =>
      .error (GoErr.serviceConnection ("HTTP client error: " ++ m))
  | .timeout =>
      .error (GoErr.serviceConnection
        ("Request timeout: " ++ c.base_url ++ endpoint))

/-- Python truthiness for the values that can appear in a filter dict. -/
def pyTruthy : Py → Bool
  | Py.none => false
  | Py.str s => s ≠ ""
  | Py.int n => n ≠ 0
  | Py.bool b => b
  | Py.list xs => !xs.isEmpty
  | Py.dict kvs => !kvs.isEmpty
  | Py.text _ => true

/-- Copy `filters[k]` into the params when `filters.get(k)` is truthy
(the pattern `if filters.get("keywords"): params["keywords"] = ...`). -/
def copyFilter (filters : List (String × Py)) (k : String)
    (ps : List (String × Py)) : List (String × Py) :=
  match assocLookup filters k with
  | some v => if pyTruthy v then pySet ps k v else ps
  | Option.none => ps

/-- Query-parameter construction of `GoServiceClient.search_papers`
(`src/clients/go_client.py` lines 179-195): `title` from a truthy query,
the five filter keys, then `limit`. -/
def search_papers_params (query : Option String)
    (filters : Option (List (String × Py))) (limit : Int) :
    List (String × Py) :=
  let ps : List (String × Py) := []
  let ps := match query with
    | some q => if q ≠ "" then pySet ps "title" (Py.str q) else ps
    | Option.none => ps
  let ps := match filters with
    | some f =>
        if !f.isEmpty then
          let ps := copyFilter f "keywords" ps
          let ps := copyFilter f "author" ps
          let ps := copyFilter f "year" ps
          let ps := copyFilter f "venue" ps
          let ps := copyFilter f "doi" ps
          ps
        else ps
    | Option.none => ps
  pySet ps "limit" (Py.int limit)

/-- `GoServiceClient.search_papers` (`src/clients/go_client.py` lines
163-213): builds the params, issues `GET /papers`, and returns the
decoded result unchanged (the `sort_by` and `offset` arguments are never
read; errors re-raise unchanged). -/
def GoServiceClient.search_papers (c : GoServiceClient)
    (query : Option String) (filters : Option (List (String × Py)))
    (sort_by : String) (limit : Int) (offset : Int) : Except GoErr Py :=
  c.make_request "GET" "/papers" (search_papers_params query filters limit)

/-- Python `len()` restricted to the value shapes it accepts. -/
def pyLen : Py → Except GoErr Nat
  | Py.str s => .ok s.length
  | Py.list xs => .ok xs.length
  | Py.dict kvs => .ok kvs.length
  | _ => .error (GoErr.typeErr "object has no len()")

/-- Body of the loop in `get_top_keywords`: `keyword_data.setdefault` on
one element; a non-dict element raises `AttributeError` in Python. -/
def normalizeKeywordItem : Py → Except GoErr Py
  | Py.dict kvs =>
      .ok (Py.dict (pySetdefault (pySetdefault kvs "keyword" (Py.str ""))
        "paper_count" (Py.int 0)))
  | _ => .error (GoErr.attrErr "object has no attribute setdefault")

/-- The loop over a keyword list: normalize elements left to right,
propagating the first raised exception. -/
def normalizeKeywordList : List Py → Except GoErr (List Py)
  | [] => .ok []
  | x :: rest =>
      match normalizeKeywordItem x with
      | .error e => .error e
      | .ok y =>
          match normalizeKeywordList rest with
          | .error e => .error e
          | .ok ys => .ok (y :: ys)

/-- The `for keyword_data in keywords` loop of `get_top_keywords`:
iterating a list visits its elements (mutating them in place, modelled by
rebuilding the list); iterating a string or a dict visits strings, on
which `setdefault` raises unless there is nothing to visit; other values
are not iterable. -/
def iterKeywords : Py → Except GoErr Py
  | Py.list xs =>
      match normalizeKeywordList xs with
      | .error e => .error e
      | .ok ys => .ok (Py.list ys)
  | Py.str s =>
      if s = "" then .ok (Py.str s)
      else .error (GoErr.attrErr "object has no attribute setdefault")
  | Py.dict kvs =>
      if kvs.isEmpty then .ok (Py.dict kvs)
      else .error (GoErr.attrErr "object has no attribute setdefault")
  | _ => .error (GoErr.typeErr "object is not iterable")

/-- Response normalization of `GoServiceClient.get_top_keywords`
(`src/clients/go_client.py` lines 377-390): reject non-dict results,
`setdefault` the `keywords` and `count` fields (the count default is the
length of the current `keywords` value, computed before the call), then
normalize every keyword entry in place. -/
def normalize_top_keywords (result : Py) : Except GoErr Py :=
  match result with
  | Py.dict kvs =>
      match pyLen (pyGetD (pySetdefault kvs "keywords" (Py.list []))
          "keywords" (Py.list [])) with
      | .error err => .error err
      | .ok n =>
          match iterKeywords (pyGetD
              (pySetdefault (pySetdefault kvs "keywords" (Py.list []))
                "count" (Py.int (Int.ofNat n)))
              "keywords" (Py.list [])) with
          | .error err => .error err
          | .ok newkw =>
              .ok (Py.dict (pySet
                (pySetdefault (pySetdefault kvs "keywords" (Py.list []))
                  "count" (Py.int (Int.ofNat n)))
                "keywords" newkw))
  | _ => .error (GoErr.valueErr "Invalid response format")

/-- `GoServiceClient.get_top_keywords` (`src/clients/go_client.py` lines
368-401): `GET /papers/keywords/top`, then the normalization above;
errors re-raise unchanged. -/
def GoServiceClient.get_top_keywords (c : GoServiceClient) :
    Except GoErr Py :=
  match c.make_request "GET" "/papers/keywords/top" [] with
  | .ok result => normalize_top_keywords result
  | .error e => .error e

/-- Python `v.get(k, default)` on a value of unknown shape: a non-dict
raises `AttributeError`. -/
def pyDictGet (v : Py) (k : String) (d : Py) : Except GoErr Py :=
  match v with
  | Py.dict kvs => .ok (pyGetD kvs k d)
  | _ => .error (GoErr.attrErr "object has no attribute get")

/-- `GoServiceClient.get_citation_network` (`src/clients/go_client.py`
lines 505-545): an empty seed list short-circuits to an empty graph with
no request; otherwise `GET /network/paper/{first seed}` with the depth
and max_nodes params, returning `result.get("graph", {})`.  The
`direction` argument and the seeds after the first are never read. -/
def GoServiceClient.get_citation_network (c : GoServiceClient)
    (seed_papers : List String) (depth : Int) (direction : String)
    (max_nodes : Int) : Except GoErr Py :=
  match seed_papers with
  | [] => .ok (Py.dict [("nodes", Py.list []), ("edges", Py.list [])])
  | paper_id :: _ =>
      match c.make_request "GET" ("/network/paper/" ++ paper_id)
          [("depth", Py.int depth), ("max_nodes", Py.int max_nodes)] with
      | .ok result => pyDictGet result "graph" (Py.dict [])
      | .error e => .error e

/-- `GoServiceClient.get_collaboration_network` (`src/clients/go_client.py`
lines 547-584): an empty author list short-circuits to an empty graph
with no request; otherwise `GET /network/author/{first author}` with
fixed `depth=1, max_nodes=50`, returning `result.get("graph", {})`.  The
`time_range` argument and the authors after the first are never read. -/
def GoServiceClient.get_collaboration_network (c : GoServiceClient)
    (authors : List String) (time_range : Option String) : Except GoErr Py :=
  match authors with
  | [] => .ok (Py.dict [("nodes", Py.list []), ("edges", Py.list [])])
  | author_id :: _ =>
      match c.make_request "GET" ("/network/author/" ++ author_id)
          [("depth", Py.int 1), ("max_nodes", Py.int 50)] with
      | .ok result => pyDictGet result "graph" (Py.dict [])
      | .error e => .error e

end GoClient

section ToolsLayer

/-- The `GoServiceClient` methods as the tool classes call them: each
field gives the outcome of one backend method for given (dynamic)
arguments.  The tool-layer theorems quantify over this oracle, so they
hold for every backend behaviour.  `GoServiceClient` has no
`get_author_details` method, so `AuthorTools.get_author_details` is not
given an oracle field: its backend call raises `AttributeError`. -/
structure GoOracle where
  search_papers : Py → Py → Py → Except String Py
  get_paper_details : Py → Except String Py
  get_paper_citations : Py → Except String Py
  get_trending_papers : Py → Py → Except String Py
  get_top_keywords : Except String Py
  search_authors : Py → Py → Py → Except String Py
  get_author_papers : Py → Except String Py
  get_citation_network : Py → Py → Py → Except String Py
  get_collaboration_network : Py → Except String Py

/-- The Markdown formatting helpers of the tool classes (excluded from
the verified core by the spec): one field per formatter a registered
handler uses.  All registry theorems hold for every formatter. -/
structure Fmts where
  format_author_search_result : Py → Py → String
  format_error_response : String → String → String
  format_author_papers : Py → Py → String
  format_search_result : Py → Py → String
  format_paper_details : Py → String
  format_citations : Py → Py → String
  format_citation_network : Py → Py → String
  format_collaboration_network : Py → Py → String
  format_trending_papers : Py → Py → String
  format_top_keywords : Py → String

/-- `handle_tool_error` (`src/utils/error_handler.py` lines 9-27): run
the wrapped handler; convert any raised exception into a normal return
of one text content item carrying the failure message. -/
def handle_tool_error (f : Handler) : Handler := fun args =>
  match f args with
  | .ok v => .ok v
  | .error e => .ok (Py.list [Py.text ("工具执行失败: " ++ e)])

/-- Python `str(KeyError(k))` as produced by `arguments[k]`. -/
def keyErrorMsg (k : String) : String := "'" ++ k ++ "'"

/-- `AuthorTools.search_authors` body (`src/mcp/tools/author_tools.py`
lines 77-98): `arguments["query"]` may raise `KeyError` outside the
inner `try`; the backend call and formatting are inside it, a failure
returning a formatted error text. -/
def search_authors_body (g : GoOracle) (fm : Fmts) : Handler := fun args =>
  match assocLookup args "query" with
  | Option.none => .error (keyErrorMsg "query")
  | some query =>
      let filters := pyGetD args "filters" (Py.dict [])
      let limit := pyGetD args "limit" (Py.int 20)
      match g.search_authors query filters limit with
      | .ok raw =>
          .ok (Py.list [Py.text (fm.format_author_search_result raw query)])
      | .error e =>
          .ok (Py.list [Py.text (fm.format_error_response e "作者搜索")])

/-- The message of the `AttributeError` raised because `GoServiceClient`
defines no `get_author_details` method. -/
def noGetAuthorDetailsMsg : String :=
  "'GoServiceClient' object has no attribute 'get_author_details'"

/-- `AuthorTools.get_author_details` body (`src/mcp/tools/author_tools.py`
lines 101-116): `arguments["author_ids"]` may raise `KeyError`; the
backend attribute lookup always raises inside the inner `try`, so the
handler always returns the formatted error text. -/
def get_author_details_body (_g : GoOracle) (fm : Fmts) : Handler := fun args =>
  match assocLookup args "author_ids" with
  | Option.none => .error (keyErrorMsg "author_ids")
  | some _ =>
      .ok (Py.list
        [Py.text (fm.format_error_response noGetAuthorDetailsMsg "获取作者详情")])

/-- `AuthorTools.get_author_papers` body (`src/mcp/tools/author_tools.py`
lines 119-134). -/
def get_author_papers_body (g : GoOracle) (fm : Fmts) : Handler := fun args =>
  match assocLookup args "author_id" with
  | Option.none => .error (keyErrorMsg "author_id")
  | some author_id =>
      match g.get_author_papers author_id with
      | .ok raw =>
          .ok (Py.list [Py.text (fm.format_author_papers raw author_id)])
      | .error e =>
          .ok (Py.list [Py.text (fm.format_error_response e "获取作者论文")])

/-- `PaperTools.search_papers` body (`src/mcp/tools/paper_tools.py`
lines 108-128). -/
def search_papers_body (g : GoOracle) (fm : Fmts) : Handler := fun args =>
  match assocLookup args "query" with
  | Option.none => .error (keyErrorMsg "query")
  | some query =>
      let filters := pyGetD args "filters" (Py.dict [])
      let limit := pyGetD args "limit" (Py.int 20)
      match g.search_papers query filters limit with
      | .ok raw => .ok (Py.list [Py.text (fm.format_search_result raw query)])
      | .error e => .ok (Py.list [Py.text ("搜索失败: " ++ e)])

/-- `PaperTools.get_paper_details` body (`src/mcp/tools/paper_tools.py`
lines 131-145). -/
def get_paper_details_body (g : GoOracle) (fm : Fmts) : Handler := fun args =>
  match assocLookup args "paper_ids" with
  | Option.none => .error (keyErrorMsg "paper_ids")
  | some paper_ids =>
      match g.get_paper_details paper_ids with
      | .ok raw => .ok (Py.list [Py.text (fm.format_paper_details raw)])
      | .error e => .ok (Py.list [Py.text ("获取论文详情失败: " ++ e)])

/-- `PaperTools.get_paper_citations` body (`src/mcp/tools/paper_tools.py`
lines 148-162). -/
def get_paper_citations_body (g : GoOracle) (fm : Fmts) : Handler := fun args =>
  match assocLookup args "paper_id" with
  | Option.none => .error (keyErrorMsg "paper_id")
  | some paper_id =>
      match g.get_paper_citations paper_id with
      | .ok raw => .ok (Py.list [Py.text (fm.format_citations raw paper_id)])
      | .error e => .ok (Py.list [Py.text ("获取论文引用失败: " ++ e)])

/-- `NetworkTools.get_citation_network` body
(`src/mcp/tools/network_tools.py` lines 80-106): wraps the single
`paper_id` argument into a one-element seed list for the client call. -/
def get_citation_network_body (g : GoOracle) (fm : Fmts) : Handler := fun args =>
  match assocLookup args "paper_id" with
  | Option.none => .error (keyErrorMsg "paper_id")
  | some paper_id =>
      let depth := pyGetD args "depth" (Py.int 1)
      let max_nodes := pyGetD args "max_nodes" (Py.int 20)
      match g.get_citation_network (Py.list [paper_id]) depth max_nodes with
      | .ok raw =>
          .ok (Py.list [Py.text (fm.format_citation_network raw paper_id)])
      | .error e => .ok (Py.list [Py.text ("获取引用网络失败: " ++ e)])

/-- `NetworkTools.get_collaboration_network` body
(`src/mcp/tools/network_tools.py` lines 109-133): the `depth` and
`max_nodes` arguments are read but not passed to the client call. -/
def get_collaboration_network_body (g : GoOracle) (fm : Fmts) : Handler :=
  fun args =>
  match assocLookup args "author_id" with
  | Option.none => .error (keyErrorMsg "author_id")
  | some author_id =>
      match g.get_collaboration_network (Py.list [author_id]) with
      | .ok raw =>
          .ok (Py.list [Py.text (fm.format_collaboration_network raw author_id)])
      | .error e => .ok (Py.list [Py.text ("获取合作网络失败: " ++ e)])

/-- `TrendTools.get_trending_papers` body (`src/mcp/tools/trend_tools.py`
lines 79-101): both arguments have defaults, so no `KeyError` path. -/
def get_trending_papers_body (g : GoOracle) (fm : Fmts) : Handler := fun args =>
  let time_window := pyGetD args "time_window" (Py.str "month")
  let limit := pyGetD args "limit" (Py.int 20)
  match g.get_trending_papers time_window limit with
  | .ok raw => .ok (Py.list [Py.text (fm.format_trending_papers raw time_window)])
  | .error e => .ok (Py.list [Py.text ("获取热门论文失败: " ++ e)])

/-- `TrendTools.get_top_keywords` body (`src/mcp/tools/trend_tools.py`
lines 104-116). -/
def get_top_keywords_body (g : GoOracle) (fm : Fmts) : Handler := fun _args =>
  match g.get_top_keywords with
  | .ok raw => .ok (Py.list [Py.text (fm.format_top_keywords raw)])
  | .error e => .ok (Py.list [Py.text ("获取热门话题失败: " ++ e)])

/-- `create_tool_registry` (`src/mcp/tools/__init__.py` lines 45-78): the
ten registered handlers, each the decorated method of its tool class, in
registration order.  `TrendTools.analyze_domain_trends` is not
registered. -/
def create_tool_registry (g : GoOracle) (fm : Fmts) : ToolTable :=
  [ ("search_authors", handle_tool_error (search_authors_body g fm)),
    ("get_author_details", handle_tool_error (get_author_details_body g fm)),
    ("get_author_papers", handle_tool_error (get_author_papers_body g fm)),
    ("search_papers", handle_tool_error (search_papers_body g fm)),
    ("get_paper_details", handle_tool_error (get_paper_details_body g fm)),
    ("get_paper_citations", handle_tool_error (get_paper_citations_body g fm)),
    ("get_citation_network", handle_tool_error (get_citation_network_body g fm)),
    ("get_collaboration_network",
      handle_tool_error (get_collaboration_network_body g fm)),
    ("get_trending_papers", handle_tool_error (get_trending_papers_body g fm)),
    ("get_top_keywords", handle_tool_error (get_top_keywords_body g fm)) ]

/-- One listed tool definition (`mcp.types.Tool`): the name and
description; the input schema is not modelled (no claim refers to it). -/
structure ToolDef where
  name : String
  description : String
  deriving Repr, DecidableEq

/-- `AuthorTools.get_tools` (`src/mcp/tools/author_tools.py`). -/
def authorTools_get_tools : List ToolDef :=
  [ ⟨"search_authors", "搜索学术作者"⟩,
    ⟨"get_author_details", "获取作者详细信息"⟩,
    ⟨"get_author_papers", "获取作者发表的论文"⟩ ]

/-- `NetworkTools.get_tools` (`src/mcp/tools/network_tools.py`). -/
def networkTools_get_tools : List ToolDef :=
  [ ⟨"get_citation_network", "获取论文引用网络图谱"⟩,
    ⟨"get_collaboration_network", "获取作者合作网络图谱"⟩ ]

/-- `PaperTools.get_tools` (`src/mcp/tools/paper_tools.py`). -/
def paperTools_get_tools : List ToolDef :=
  [ ⟨"search_papers", "搜索学术论文，支持关键词、作者、时间范围等过滤条件"⟩,
    ⟨"get_paper_details", "获取指定论文的详细信息"⟩,
    ⟨"get_paper_citations", "获取论文的引用关系"⟩,
    ⟨"get_trending_papers", "获取热门论文"⟩ ]

/-- `TrendTools.get_tools` (`src/mcp/tools/trend_tools.py` lines 19-76):
three definitions, including `analyze_domain_trends`. -/
def trendTools_get_tools : List ToolDef :=
  [ ⟨"get_trending_papers", "获取热门论文趋势"⟩,
    ⟨"get_top_keywords", "获取热门研究话题"⟩,
    ⟨"analyze_domain_trends", "分析特定领域的研究趋势"⟩ ]

/-- `get_all_tool_definitions` (`src/mcp/tools/__init__.py` lines
81-101): concatenation of every class's `get_tools()` in the order of
the `get_all_tools` dict: author, network, paper, trend. -/
def get_all_tool_definitions : List ToolDef :=
  authorTools_get_tools ++ networkTools_get_tools ++
    paperTools_get_tools ++ trendTools_get_tools

/-- The names shown by `list_tools()` (the server returns
`self.tool_definitions`, built by `get_all_tool_definitions`). -/
def listedToolNames : List String := get_all_tool_definitions.map ToolDef.name

end ToolsLayer

section Connect

/-- Program counter of one task running `GoServiceClient.connect()`
(`src/clients/go_client.py` lines 31-78).  `fastCheck` is the
unsynchronized check at line 33; `waitLock` is `async with
self._session_lock`; `recheck` is the double check at line 37;
`constructing` builds and publishes the new session (lines 45-60, no
suspension point inside); `releasing` leaves the `async with` block
(both the early `return` and the fall-through release the lock);
`finished` means the call returned. -/
inductive Pc where
  | fastCheck
  | waitLock
  | recheck
  | constructing
  | releasing
  | finished
  deriving Repr, DecidableEq

/-- One `aiohttp.ClientSession`: an identity and its closed flag. -/
structure Session where
  sid : Nat
  closed : Bool
  deriving Repr, DecidableEq

/-- The shared client state plus the program counters of the concurrent
`connect()` callers: `session` is `self.session`, `lockOwner` the holder
of `self._session_lock`, and `constructed` counts session
constructions.  Construction is assumed to succeed, as claim C7 does. -/
structure ClientSys where
  numTasks : Nat
  pcs : Nat → Pc
  lockOwner : Option Nat
  session : Option Session
  constructed : Nat

/-- The fast-path condition `self.session and not self.session.closed`. -/
def validSession (s : ClientSys) : Bool :=
  match s.session with
  | some sess => !sess.closed
  | Option.none => false

/-- Update one task's program counter. -/
def setPc (pcs : Nat → Pc) (i : Nat) (v : Pc) : Nat → Pc :=
  fun j => if j = i then v else pcs j

/-- One cooperative step of task `i` (a no-op for tasks out of range,
finished tasks, and tasks waiting on a held lock). -/
def step (s : ClientSys) (i : Nat) : ClientSys :=
  if i < s.numTasks then
    match s.pcs i with
    | Pc.fastCheck =>
        if validSession s then { s with pcs := setPc s.pcs i Pc.finished }
        else { s with pcs := setPc s.pcs i Pc.waitLock }
    | Pc.waitLock =>
        match s.lockOwner with
        | Option.none =>
            { s with pcs := setPc s.pcs i Pc.recheck, lockOwner := some i }
        | some _ => s
    | Pc.recheck =>
        if validSession s then { s with pcs := setPc s.pcs i Pc.releasing }
        else { s with pcs := setPc s.pcs i Pc.constructing }
    | Pc.constructing =>
        { s with session := some ⟨s.constructed, false⟩,
                 constructed := s.constructed + 1,
                 pcs := setPc s.pcs i Pc.releasing }
    | Pc.releasing =>
        { s with lockOwner := Option.none, pcs := setPc s.pcs i Pc.finished }
    | Pc.finished => s
  else s

/-- Run a schedule (an arbitrary interleaving of task steps). -/
def run (s : ClientSys) : List Nat → ClientSys
  | [] => s
  | i :: rest => run (step s i) rest

/-- N fresh concurrent `connect()` calls on a client with no session. -/
def initSys (n : Nat) : ClientSys :=
  { numTasks := n, pcs := fun _ => Pc.fastCheck, lockOwner := Option.none,
    session := Option.none, constructed := 0 }

/-- Every call has returned. -/
def allFinished (s : ClientSys) : Prop :=
  ∀ i, i < s.numTasks → s.pcs i = Pc.finished

/-- Program counters inside the critical section. -/
def inCrit : Pc → Bool
  | Pc.recheck => true
  | Pc.constructing => true
  | Pc.releasing => true
  | _ => false

/-- The inductive invariant of the double-checked-lock discipline. -/
structure Inv (s : ClientSys) : Prop where
  critOwner : ∀ i, inCrit (s.pcs i) = true → s.lockOwner = some i
  ownerCrit : ∀ i, s.lockOwner = some i →
    i < s.numTasks ∧ inCrit (s.pcs i) = true
  outOfRange : ∀ i, s.numTasks ≤ i → s.pcs i = Pc.fastCheck
  constructedLe : s.constructed ≤ 1
  sessionOpen : ∀ sess, s.session = some sess →
    sess.closed = false ∧ s.constructed = 1
  constructingFresh : ∀ i, s.pcs i = Pc.constructing →
    s.session = Option.none ∧ s.constructed = 0
  releasingValid : ∀ i, s.pcs i = Pc.releasing → validSession s = true
  finishedValid : ∀ i, i < s.numTasks → s.pcs i = Pc.finished →
    validSession s = true
  constructedValid : s.constructed = 1 → validSession s = true

theorem setPc_same (pcs : Nat → Pc) (i : Nat) (v : Pc) : setPc pcs i v i = v := by
  simp [setPc]

theorem setPc_other (pcs : Nat → Pc) (i : Nat) (v : Pc) {j : Nat} (hji : j ≠ i) :
    setPc pcs i v j = pcs j := by
  simp [setPc, hji]

theorem inv_init (n : Nat) : Inv (initSys n) := by
  refine ⟨?_, ?_, ?_, ?_, ?_, ?_, ?_, ?_, ?_⟩ <;>
    simp [initSys, inCrit, validSession, allFinished]

theorem step_of_oob {s : ClientSys} {i : Nat} (hi : ¬ i < s.numTasks) :
    step s i = s := by
  rw [step, if_neg hi]

theorem step_of_fastCheck {s : ClientSys} {i : Nat} (hi : i < s.numTasks)
    (hpc : s.pcs i = Pc.fastCheck) :
    step s i = if validSession s then { s with pcs := setPc s.pcs i Pc.finished }
      else { s with pcs := setPc s.pcs i Pc.waitLock } := by
  rw [step, if_pos hi, hpc]

theorem step_of_waitLock_free {s : ClientSys} {i : Nat} (hi : i < s.numTasks)
    (hpc : s.pcs i = Pc.waitLock) (hlo : s.lockOwner = Option.none) :
    step s i = { s with pcs := setPc s.pcs i Pc.recheck, lockOwner := some i } := by
  rw [step, if_pos hi, hpc, hlo]

theorem step_of_waitLock_held {s : ClientSys} {i k : Nat} (hi : i < s.numTasks)
    (hpc : s.pcs i = Pc.waitLock) (hlo : s.lockOwner = some k) :
    step s i = s := by
  rw [step, if_pos hi, hpc, hlo]

theorem step_of_recheck {s : ClientSys} {i : Nat} (hi : i < s.numTasks)
    (hpc : s.pcs i = Pc.recheck) :
    step s i = if validSession s then { s with pcs := setPc s.pcs i Pc.releasing }
      else { s with pcs := setPc s.pcs i Pc.constructing } := by
  rw [step, if_pos hi, hpc]

theorem step_of_constructing {s : ClientSys} {i : Nat} (hi : i < s.numTasks)
    (hpc : s.pcs i = Pc.constructing) :
    step s i =
      { s with session := some ⟨s.constructed, false⟩,
               constructed := s.constructed + 1,
               pcs := setPc s.pcs i Pc.releasing } := by
  rw [step, if_pos hi, hpc]

theorem step_of_releasing {s : ClientSys} {i : Nat} (hi : i < s.numTasks)
    (hpc : s.pcs i = Pc.releasing) :
    step s i =
      { s with lockOwner := Option.none,
               pcs := setPc s.pcs i Pc.finished } := by
  rw [step, if_pos hi, hpc]

theorem step_of_finished {s : ClientSys} {i : Nat} (hi : i < s.numTasks)
    (hpc : s.pcs i = Pc.finished) : step s i = s := by
  rw [step, if_pos hi, hpc]

theorem inv_step {s : ClientSys} (h : Inv s) (i : Nat) : Inv (step s i) := by
  obtain ⟨h1, h2, h3, h4, h5, h6, h7, h8, h9⟩ := h
  by_cases hi : i < s.numTasks
  · cases hpc : s.pcs i
    -- fastCheck
    · rw [step_of_fastCheck hi hpc]
      by_cases hv : validSession s
      · rw [if_pos hv]
        refine ⟨?_, ?_, ?_, h4, h5, ?_, ?_, ?_, h9⟩
        · intro j hj
          by_cases hji : j = i
          · subst hji; simp [setPc, inCrit] at hj
          · simp only [setPc_other _ _ _ hji] at hj
            exact h1 j hj
        · intro j hj
          obtain ⟨hjn, hcrit⟩ := h2 j hj
          have hji : j ≠ i := by
            intro e; subst e; rw [hpc] at hcrit; simp [inCrit] at hcrit
          exact ⟨hjn, by simp only [setPc_other _ _ _ hji]; exact hcrit⟩
        · intro j hjn
          have hjn2 : s.numTasks ≤ j := hjn
          have hji : j ≠ i := by omega
          simp only [setPc_other _ _ _ hji]; exact h3 j hjn2
        · intro j hj
          by_cases hji : j = i
          · subst hji; simp [setPc] at hj
          · simp only [setPc_other _ _ _ hji] at hj; exact h6 j hj
        · intro j hj
          by_cases hji : j = i
          · subst hji; simp [setPc] at hj
          · simp only [setPc_other _ _ _ hji] at hj; exact h7 j hj
        · intro j hjn hj
          by_cases hji : j = i
          · exact hv
          · simp only [setPc_other _ _ _ hji] at hj; exact h8 j hjn hj
      · rw [if_neg hv]
        refine ⟨?_, ?_, ?_, h4, h5, ?_, ?_, ?_, h9⟩
        · intro j hj
          by_cases hji : j = i
          · subst hji; simp [setPc, inCrit] at hj
          · simp only [setPc_other _ _ _ hji] at hj; exact h1 j hj
        · intro j hj
          obtain ⟨hjn, hcrit⟩ := h2 j hj
          have hji : j ≠ i := by
            intro e; subst e; rw [hpc] at hcrit; simp [inCrit] at hcrit
          exact ⟨hjn, by simp only [setPc_other _ _ _ hji]; exact hcrit⟩
        · intro j hjn
          have hjn2 : s.numTasks ≤ j := hjn
          have hji : j ≠ i := by omega
          simp only [setPc_other _ _ _ hji]; exact h3 j hjn2
        · intro j hj
          by_cases hji : j = i
          · subst hji; simp [setPc] at hj
          · simp only [setPc_other _ _ _ hji] at hj; exact h6 j hj
        · intro j hj
          by_cases hji : j = i
          · subst hji; simp [setPc] at hj
          · simp only [setPc_other _ _ _ hji] at hj; exact h7 j hj
        · intro j hjn hj
          by_cases hji : j = i
          · subst hji; simp [setPc] at hj
          · simp only [setPc_other _ _ _ hji] at hj; exact h8 j hjn hj
    -- waitLock
    · cases hlo : s.lockOwner
      · rw [step_of_waitLock_free hi hpc hlo]
        refine ⟨?_, ?_, ?_, h4, h5, ?_, ?_, ?_, h9⟩
        · intro j hj
          by_cases hji : j = i
          · subst hji; rfl
          · simp only [setPc_other _ _ _ hji] at hj
            have hx := h1 j hj
            rw [hlo] at hx
            exact absurd hx (by simp)
        · intro j hj
          have hx : some i = some j := hj
          have hji : i = j := by injection hx
          subst hji
          exact ⟨hi, by simp only [setPc_same]; rfl⟩
        · intro j hjn
          have hjn2 : s.numTasks ≤ j := hjn
          have hji : j ≠ i := by omega
          simp only [setPc_other _ _ _ hji]; exact h3 j hjn2
        · intro j hj
          by_cases hji : j = i
          · subst hji; simp [setPc] at hj
          · simp only [setPc_other _ _ _ hji] at hj; exact h6 j hj
        · intro j hj
          by_cases hji : j = i
          · subst hji; simp [setPc] at hj
          · simp only [setPc_other _ _ _ hji] at hj; exact h7 j hj
        · intro j hjn hj
          by_cases hji : j = i
          · subst hji; simp [setPc] at hj
          · simp only [setPc_other _ _ _ hji] at hj; exact h8 j hjn hj
      · rw [step_of_waitLock_held hi hpc (by assumption)]
        exact ⟨h1, h2, h3, h4, h5, h6, h7, h8, h9⟩
    -- recheck
    · have hlock : s.lockOwner = some i := h1 i (by rw [hpc]; rfl)
      rw [step_of_recheck hi hpc]
      by_cases hv : validSession s
      · rw [if_pos hv]
        refine ⟨?_, ?_, ?_, h4, h5, ?_, ?_, ?_, h9⟩
        · intro j hj
          by_cases hji : j = i
          · subst hji; exact hlock
          · simp only [setPc_other _ _ _ hji] at hj; exact h1 j hj
        · intro j hj
          obtain ⟨hjn, hcrit⟩ := h2 j hj
          by_cases hji : j = i
          · subst hji; exact ⟨hjn, by simp only [setPc_same]; rfl⟩
          · exact ⟨hjn, by simp only [setPc_other _ _ _ hji]; exact hcrit⟩
        · intro j hjn
          have hjn2 : s.numTasks ≤ j := hjn
          have hji : j ≠ i := by omega
          simp only [setPc_other _ _ _ hji]; exact h3 j hjn2
        · intro j hj
          by_cases hji : j = i
          · subst hji; simp [setPc] at hj
          · simp only [setPc_other _ _ _ hji] at hj; exact h6 j hj
        · intro j hj
          by_cases hji : j = i
          · exact hv
          · simp only [setPc_other _ _ _ hji] at hj; exact h7 j hj
        · intro j hjn hj
          by_cases hji : j = i
          · subst hji; simp [setPc] at hj
          · simp only [setPc_other _ _ _ hji] at hj; exact h8 j hjn hj
      · rw [if_neg hv]
        have hnone : s.session = Option.none := by
          cases hs : s.session with
          | none => rfl
          | some sess =>
              exact absurd (by simp [validSession, hs, (h5 sess hs).1]) hv
        have hzero : s.constructed = 0 := by
          have hne : s.constructed ≠ 1 := fun e => hv (h9 e)
          omega
        refine ⟨?_, ?_, ?_, h4, h5, ?_, ?_, ?_, h9⟩
        · intro j hj
          by_cases hji : j = i
          · subst hji; exact hlock
          · simp only [setPc_other _ _ _ hji] at hj; exact h1 j hj
        · intro j hj
          obtain ⟨hjn, hcrit⟩ := h2 j hj
          by_cases hji : j = i
          · subst hji; exact ⟨hjn, by simp only [setPc_same]; rfl⟩
          · exact ⟨hjn, by simp only [setPc_other _ _ _ hji]; exact hcrit⟩
        · intro j hjn
          have hjn2 : s.numTasks ≤ j := hjn
          have hji : j ≠ i := by omega
          simp only [setPc_other _ _ _ hji]; exact h3 j hjn2
        · intro j hj
          exact ⟨hnone, hzero⟩
        · intro j hj
          by_cases hji : j = i
          · subst hji; simp [setPc] at hj
          · simp only [setPc_other _ _ _ hji] at hj; exact h7 j hj
        · intro j hjn hj
          by_cases hji : j = i
          · subst hji; simp [setPc] at hj
          · simp only [setPc_other _ _ _ hji] at hj; exact h8 j hjn hj
    -- constructing
    · have hlock : s.lockOwner = some i := h1 i (by rw [hpc]; rfl)
      have hfresh := h6 i hpc
      rw [step_of_constructing hi hpc]
      refine ⟨?_, ?_, ?_, ?_, ?_, ?_, ?_, ?_, ?_⟩
      · intro j hj
        by_cases hji : j = i
        · subst hji; exact hlock
        · simp only [setPc_other _ _ _ hji] at hj; exact h1 j hj
      · intro j hj
        obtain ⟨hjn, hcrit⟩ := h2 j hj
        by_cases hji : j = i
        · subst hji; exact ⟨hjn, by simp only [setPc_same]; rfl⟩
        · exact ⟨hjn, by simp only [setPc_other _ _ _ hji]; exact hcrit⟩
      · intro j hjn
        have hjn2 : s.numTasks ≤ j := hjn
        have hji : j ≠ i := by omega
        simp only [setPc_other _ _ _ hji]; exact h3 j hjn2
      · show s.constructed + 1 ≤ 1
        omega
      · intro sess hsess
        have hx : some (⟨s.constructed, false⟩ : Session) = some sess := hsess
        have he : (⟨s.constructed, false⟩ : Session) = sess := by injection hx
        subst he
        exact ⟨rfl, by show s.constructed + 1 = 1; omega⟩
      · intro j hj
        by_cases hji : j = i
        · subst hji; simp [setPc] at hj
        · simp only [setPc_other _ _ _ hji] at hj
          have hx := h1 j (by rw [hj]; rfl)
          rw [hlock] at hx
          have he : i = j := by injection hx
          exact absurd he.symm hji
      · intro j hj
        rfl
      · intro j hjn hj
        rfl
      · intro hc
        rfl
    -- releasing
    · have hlock : s.lockOwner = some i := h1 i (by rw [hpc]; rfl)
      have hval : validSession s = true := h7 i hpc
      rw [step_of_releasing hi hpc]
      refine ⟨?_, ?_, ?_, h4, h5, ?_, ?_, ?_, h9⟩
      · intro j hj
        by_cases hji : j = i
        · subst hji; simp [setPc, inCrit] at hj
        · simp only [setPc_other _ _ _ hji] at hj
          have hx := h1 j hj
          rw [hlock] at hx
          have he : i = j := by injection hx
          exact absurd he.symm hji
      · intro j hj
        have hx : (Option.none : Option Nat) = some j := hj
        exact absurd hx (by simp)
      · intro j hjn
        have hjn2 : s.numTasks ≤ j := hjn
        have hji : j ≠ i := by omega
        simp only [setPc_other _ _ _ hji]; exact h3 j hjn2
      · intro j hj
        by_cases hji : j = i
        · subst hji; simp [setPc] at hj
        · simp only [setPc_other _ _ _ hji] at hj; exact h6 j hj
      · intro j hj
        by_cases hji : j = i
        · subst hji; simp [setPc] at hj
        · simp only [setPc_other _ _ _ hji] at hj; exact h7 j hj
      · intro j hjn hj
        by_cases hji : j = i
        · exact hval
        · simp only [setPc_other _ _ _ hji] at hj; exact h8 j hjn hj
    -- finished
    · rw [step_of_finished hi hpc]
      exact ⟨h1, h2, h3, h4, h5, h6, h7, h8, h9⟩
  · rw [step_of_oob hi]
    exact ⟨h1, h2, h3, h4, h5, h6, h7, h8, h9⟩


theorem inv_run {s : ClientSys} (h : Inv s) :
    ∀ sched : List Nat, Inv (run s sched)
  | [] => h
  | i :: rest => inv_run (inv_step h i) rest

/-- Rank of a program counter: how many steps the task still takes. -/
def pcRank : Pc → Nat
  | Pc.fastCheck => 5
  | Pc.waitLock => 4
  | Pc.recheck => 3
  | Pc.constructing => 2
  | Pc.releasing => 1
  | Pc.finished => 0

/-- Termination measure: total remaining rank over all tasks. -/
def sysMeasure (s : ClientSys) : Nat :=
  ∑ i ∈ Finset.range s.numTasks, pcRank (s.pcs i)

theorem step_numTasks (s : ClientSys) (i : Nat) :
    (step s i).numTasks = s.numTasks := by
  by_cases hi : i < s.numTasks
  · cases hpc : s.pcs i
    · rw [step_of_fastCheck hi hpc]
      by_cases hv : validSession s
      · rw [if_pos hv]
      · rw [if_neg hv]
    · cases hlo : s.lockOwner
      · rw [step_of_waitLock_free hi hpc hlo]
      · rw [step_of_waitLock_held hi hpc (by assumption)]
    · rw [step_of_recheck hi hpc]
      by_cases hv : validSession s
      · rw [if_pos hv]
      · rw [if_neg hv]
    · rw [step_of_constructing hi hpc]
    · rw [step_of_releasing hi hpc]
    · rw [step_of_finished hi hpc]
  · rw [step_of_oob hi]

theorem sysMeasure_lt {s : ClientSys} {i : Nat} (hi : i < s.numTasks)
    (hother : ∀ j, j ≠ i → (step s i).pcs j = s.pcs j)
    (hlt : pcRank ((step s i).pcs i) < pcRank (s.pcs i)) :
    sysMeasure (step s i) < sysMeasure s := by
  rw [sysMeasure, sysMeasure, step_numTasks]
  refine Finset.sum_lt_sum (fun j hjmem => ?_) ⟨i, Finset.mem_range.mpr hi, hlt⟩
  by_cases hji : j = i
  · subst hji; exact Nat.le_of_lt hlt
  · rw [hother j hji]

/-- Any state satisfying the invariant with an unfinished task in range
has an enabled step that strictly decreases the measure. -/
theorem progress {s : ClientSys} (h : Inv s) {i0 : Nat}
    (hi0 : i0 < s.numTasks) (hnf : s.pcs i0 ≠ Pc.finished) :
    ∃ i, i < s.numTasks ∧ sysMeasure (step s i) < sysMeasure s := by
  cases hlo : s.lockOwner with
  | some k =>
      obtain ⟨hkn, hkcrit⟩ := h.ownerCrit k hlo
      refine ⟨k, hkn, ?_⟩
      have hother : ∀ j, j ≠ k → (step s k).pcs j = s.pcs j := by
        intro j hjk
        cases hpc : s.pcs k
        · rw [step_of_fastCheck hkn hpc]
          by_cases hv : validSession s
          · rw [if_pos hv]; exact setPc_other _ _ _ hjk
          · rw [if_neg hv]; exact setPc_other _ _ _ hjk
        · rw [step_of_waitLock_held hkn hpc hlo]
        · rw [step_of_recheck hkn hpc]
          by_cases hv : validSession s
          · rw [if_pos hv]; exact setPc_other _ _ _ hjk
          · rw [if_neg hv]; exact setPc_other _ _ _ hjk
        · rw [step_of_constructing hkn hpc]; exact setPc_other _ _ _ hjk
        · rw [step_of_releasing hkn hpc]; exact setPc_other _ _ _ hjk
        · rw [step_of_finished hkn hpc]
      refine sysMeasure_lt hkn hother ?_
      cases hpc : s.pcs k
      · rw [hpc] at hkcrit; simp [inCrit] at hkcrit
      · rw [hpc] at hkcrit; simp [inCrit] at hkcrit
      · rw [step_of_recheck hkn hpc]
        by_cases hv : validSession s
        · rw [if_pos hv]
          simp only [setPc_same, hpc, pcRank]
          omega
        · rw [if_neg hv]
          simp only [setPc_same, hpc, pcRank]
          omega
      · rw [step_of_constructing hkn hpc]
        simp only [setPc_same, hpc, pcRank]
        omega
      · rw [step_of_releasing hkn hpc]
        simp only [setPc_same, hpc, pcRank]
        omega
      · rw [hpc] at hkcrit; simp [inCrit] at hkcrit
  | none =>
      refine ⟨i0, hi0, ?_⟩
      cases hpc : s.pcs i0
      · have hother : ∀ j, j ≠ i0 → (step s i0).pcs j = s.pcs j := by
          intro j hj
          rw [step_of_fastCheck hi0 hpc]
          by_cases hv : validSession s
          · rw [if_pos hv]; exact setPc_other _ _ _ hj
          · rw [if_neg hv]; exact setPc_other _ _ _ hj
        refine sysMeasure_lt hi0 hother ?_
        rw [step_of_fastCheck hi0 hpc]
        by_cases hv : validSession s
        · rw [if_pos hv]
          simp only [setPc_same, hpc, pcRank]
          omega
        · rw [if_neg hv]
          simp only [setPc_same, hpc, pcRank]
          omega
      · have hother : ∀ j, j ≠ i0 → (step s i0).pcs j = s.pcs j := by
          intro j hj
          rw [step_of_waitLock_free hi0 hpc hlo]
          exact setPc_other _ _ _ hj
        refine sysMeasure_lt hi0 hother ?_
        rw [step_of_waitLock_free hi0 hpc hlo]
        simp only [setPc_same, hpc, pcRank]
        omega
      · have hx := h.critOwner i0 (by rw [hpc]; rfl)
        rw [hlo] at hx; exact absurd hx (by simp)
      · have hx := h.critOwner i0 (by rw [hpc]; rfl)
        rw [hlo] at hx; exact absurd hx (by simp)
      · have hx := h.critOwner i0 (by rw [hpc]; rfl)
        rw [hlo] at hx; exact absurd hx (by simp)
      · exact absurd hpc hnf

/-- From any invariant state there is a schedule finishing every task. -/
theorem reach_finished {s : ClientSys} (h : Inv s) :
    ∃ sched : List Nat, allFinished (run s sched) := by
  by_cases hf : ∀ i, i < s.numTasks → s.pcs i = Pc.finished
  · exact ⟨[], hf⟩
  · push_neg at hf
    obtain ⟨i0, hi0, hnf⟩ := hf
    obtain ⟨i, _hi, hlt⟩ := progress h hi0 hnf
    obtain ⟨sched, hs⟩ := reach_finished (inv_step h i)
    exact ⟨i :: sched, hs⟩
termination_by sysMeasure s
decreasing_by exact hlt

end Connect

section Support

theorem assocLookup_append_none {α : Type} (xs ys : List (String × α))
    (k : String) (h : assocLookup xs k = Option.none) :
    assocLookup (xs ++ ys) k = assocLookup ys k := by
  induction xs with
  | nil => rfl
  | cons hd tl ih =>
      rw [assocLookup] at h
      by_cases he : hd.1 = k
      · rw [if_pos he] at h; cases h
      · rw [if_neg he] at h
        show assocLookup ((hd.1, hd.2) :: (tl ++ ys)) k = _
        rw [assocLookup, if_neg he]
        exact ih h

theorem assocLookup_pySet_same (kvs : List (String × Py)) (k : String) (v : Py) :
    assocLookup (pySet kvs k v) k = some v := by
  induction kvs with
  | nil => simp [pySet, assocLookup]
  | cons hd tl ih =>
      show assocLookup (pySet ((hd.1, hd.2) :: tl) k v) k = some v
      rw [pySet]
      by_cases he : hd.1 = k
      · rw [if_pos he, assocLookup, if_pos rfl]
      · rw [if_neg he, assocLookup, if_neg he]
        exact ih

theorem assocLookup_pySet_other (kvs : List (String × Py)) (k k2 : String)
    (v : Py) (hne : k2 ≠ k) :
    assocLookup (pySet kvs k v) k2 = assocLookup kvs k2 := by
  induction kvs with
  | nil => simp [pySet, assocLookup, Ne.symm hne]
  | cons hd tl ih =>
      show assocLookup (pySet ((hd.1, hd.2) :: tl) k v) k2 =
        assocLookup ((hd.1, hd.2) :: tl) k2
      rw [pySet]
      by_cases he : hd.1 = k
      · rw [if_pos he, assocLookup, assocLookup, if_neg (fun h => hne h.symm),
          if_neg (by rw [he]; exact fun h => hne h.symm)]
      · rw [if_neg he, assocLookup, assocLookup]
        by_cases he2 : hd.1 = k2
        · rw [if_pos he2, if_pos he2]
        · rw [if_neg he2, if_neg he2]
          exact ih

theorem assocLookup_pySetdefault_self (kvs : List (String × Py)) (k : String)
    (d : Py) : ∃ w, assocLookup (pySetdefault kvs k d) k = some w := by
  rw [pySetdefault]
  cases hl : assocLookup kvs k with
  | some w => exact ⟨w, hl⟩
  | none =>
      refine ⟨d, ?_⟩
      rw [assocLookup_append_none kvs _ k hl]
      simp [assocLookup]

theorem assocLookup_append_single_other (xs : List (String × Py))
    (k k2 : String) (d : Py) (hne : k2 ≠ k) :
    assocLookup (xs ++ [(k, d)]) k2 = assocLookup xs k2 := by
  induction xs with
  | nil =>
      show assocLookup [(k, d)] k2 = Option.none
      simp [assocLookup, Ne.symm hne]
  | cons hd tl ih =>
      show assocLookup ((hd.1, hd.2) :: (tl ++ [(k, d)])) k2 =
        assocLookup ((hd.1, hd.2) :: tl) k2
      rw [assocLookup, assocLookup]
      by_cases he : hd.1 = k2
      · rw [if_pos he, if_pos he]
      · rw [if_neg he, if_neg he]
        exact ih

theorem assocLookup_pySetdefault_other (kvs : List (String × Py))
    (k k2 : String) (d : Py) (hne : k2 ≠ k) :
    assocLookup (pySetdefault kvs k d) k2 = assocLookup kvs k2 := by
  rw [pySetdefault]
  cases hl : assocLookup kvs k with
  | some w => rfl
  | none => exact assocLookup_append_single_other kvs k k2 d hne

theorem pySet_append_absent (xs ys : List (String × Py)) (k : String) (v : Py)
    (h : assocLookup xs k = Option.none) :
    pySet (xs ++ ys) k v = xs ++ pySet ys k v := by
  induction xs with
  | nil => rfl
  | cons hd tl ih =>
      rw [assocLookup] at h
      by_cases he : hd.1 = k
      · rw [if_pos he] at h; cases h
      · rw [if_neg he] at h
        show pySet ((hd.1, hd.2) :: (tl ++ ys)) k v = _
        rw [pySet, if_neg he, ih h]
        rfl

theorem string_ne_of_head_ne {a b : String} {c1 c2 : Char}
    (ha : a.data.head? = some c1) (hb : b.data.head? = some c2)
    (hc : c1 ≠ c2) (s t : String) : a ++ s ≠ b ++ t := by
  intro h
  have hd : (a ++ s).data.head? = (b ++ t).data.head? := by rw [h]
  rw [String.data_append, String.data_append] at hd
  cases hla : a.data with
  | nil => rw [hla] at ha; cases ha
  | cons x xs =>
      cases hlb : b.data with
      | nil => rw [hlb] at hb; cases hb
      | cons y ys =>
          rw [hla] at ha
          rw [hlb] at hb
          rw [hla, hlb] at hd
          simp only [List.cons_append, List.head?_cons, Option.some.injEq] at ha hb hd
          subst ha
          subst hb
          exact hc hd

theorem pyReprItems_part (k : String) :
    ∀ ks : List String, k ∈ ks → ∃ p q, pyReprItems ks = p ++ k ++ q
  | [], h => absurd h (List.not_mem_nil k)
  | [x], h => by
      have hkx : k = x := by simpa using h
      subst hkx
      exact ⟨"'", "'", rfl⟩
  | x :: y :: rest, h => by
      rcases List.mem_cons.mp h with hk | hk
      · subst hk
        refine ⟨"'", "'" ++ ", " ++ pyReprItems (y :: rest), ?_⟩
        show pyQuote k ++ ", " ++ pyReprItems (y :: rest) = _
        rw [pyQuote]
        simp only [String.append_assoc]
      · obtain ⟨p, q, hpq⟩ := pyReprItems_part k (y :: rest) hk
        refine ⟨pyQuote x ++ ", " ++ p, q, ?_⟩
        show pyQuote x ++ ", " ++ pyReprItems (y :: rest) = _
        rw [hpq]
        simp only [String.append_assoc]

theorem unknownToolMsg_names (name : String) (ks : List String) :
    (∃ p q, unknownToolMsg name ks = p ++ name ++ q) ∧
    (∀ k, k ∈ ks → ∃ p q, unknownToolMsg name ks = p ++ k ++ q) := by
  constructor
  · refine ⟨"Unknown tool: ", ". Available tools: " ++ pyReprKeys ks, ?_⟩
    rw [unknownToolMsg]
    simp only [String.append_assoc]
  · intro k hk
    obtain ⟨p, q, hpq⟩ := pyReprItems_part k ks hk
    refine ⟨"Unknown tool: " ++ name ++ ". Available tools: " ++ "[" ++ p,
      q ++ "]", ?_⟩
    rw [unknownToolMsg, pyReprKeys, hpq]
    simp only [String.append_assoc]

theorem assocLookup_map_none (tools : ToolTable) (name : String)
    (f : Handler → Handler) (h : assocLookup tools name = Option.none) :
    assocLookup (tools.map fun pr => (pr.1, f pr.2)) name = Option.none := by
  induction tools with
  | nil => rfl
  | cons hd tl ih =>
      rw [assocLookup] at h
      by_cases he : hd.1 = name
      · rw [if_pos he] at h; cases h
      · rw [if_neg he] at h
        show assocLookup ((hd.1, f hd.2) :: tl.map _) name = Option.none
        rw [assocLookup, if_neg he]
        exact ih h

theorem tableKeys_map (tools : ToolTable) (f : Handler → Handler) :
    tableKeys (tools.map fun pr => (pr.1, f pr.2)) = tableKeys tools := by
  simp [tableKeys]

theorem run_numTasks (sched : List Nat) :
    ∀ s : ClientSys, (run s sched).numTasks = s.numTasks := by
  induction sched with
  | nil => intro s; rfl
  | cons i rest ih =>
      intro s
      show (run (step s i) rest).numTasks = s.numTasks
      rw [ih (step s i), step_numTasks]

end Support

section RegistryShape

/-- A handler body that either returns one text content item or raises:
the shape of every decorated tool method in this codebase. -/
def TextListOrRaise (f : Handler) : Prop :=
  ∀ args, (∃ s, f args = .ok (Py.list [Py.text s])) ∨ (∃ e, f args = .error e)

theorem handle_tool_error_total {f : Handler} (hf : TextListOrRaise f)
    (args : List (String × Py)) :
    ∃ s, handle_tool_error f args = .ok (Py.list [Py.text s]) := by
  rcases hf args with ⟨s, hs⟩ | ⟨e, he⟩
  · exact ⟨s, by rw [handle_tool_error, hs]⟩
  · exact ⟨"工具执行失败: " ++ e, by rw [handle_tool_error, he]⟩

theorem search_authors_body_shape (g : GoOracle) (fm : Fmts) :
    TextListOrRaise (search_authors_body g fm) := by
  intro args
  rw [search_authors_body]
  cases hq : assocLookup args "query" with
  | none => exact Or.inr ⟨_, rfl⟩
  | some query =>
      cases hr : g.search_authors query (pyGetD args "filters" (Py.dict []))
          (pyGetD args "limit" (Py.int 20)) with
      | ok raw => exact Or.inl ⟨_, by simp only [hr]; rfl⟩
      | error e => exact Or.inl ⟨_, by simp only [hr]; rfl⟩

theorem get_author_details_body_shape (g : GoOracle) (fm : Fmts) :
    TextListOrRaise (get_author_details_body g fm) := by
  intro args
  rw [get_author_details_body]
  cases hq : assocLookup args "author_ids" with
  | none => exact Or.inr ⟨_, rfl⟩
  | some v => exact Or.inl ⟨_, rfl⟩

theorem get_author_papers_body_shape (g : GoOracle) (fm : Fmts) :
    TextListOrRaise (get_author_papers_body g fm) := by
  intro args
  rw [get_author_papers_body]
  cases hq : assocLookup args "author_id" with
  | none => exact Or.inr ⟨_, rfl⟩
  | some author_id =>
      cases hr : g.get_author_papers author_id with
      | ok raw => exact Or.inl ⟨_, by simp only [hr]; rfl⟩
      | error e => exact Or.inl ⟨_, by simp only [hr]; rfl⟩

theorem search_papers_body_shape (g : GoOracle) (fm : Fmts) :
    TextListOrRaise (search_papers_body g fm) := by
  intro args
  rw [search_papers_body]
  cases hq : assocLookup args "query" with
  | none => exact Or.inr ⟨_, rfl⟩
  | some query =>
      cases hr : g.search_papers query (pyGetD args "filters" (Py.dict []))
          (pyGetD args "limit" (Py.int 20)) with
      | ok raw => exact Or.inl ⟨_, by simp only [hr]; rfl⟩
      | error e => exact Or.inl ⟨_, by simp only [hr]; rfl⟩

theorem get_paper_details_body_shape (g : GoOracle) (fm : Fmts) :
    TextListOrRaise (get_paper_details_body g fm) := by
  intro args
  rw [get_paper_details_body]
  cases hq : assocLookup args "paper_ids" with
  | none => exact Or.inr ⟨_, rfl⟩
  | some paper_ids =>
      cases hr : g.get_paper_details paper_ids with
      | ok raw => exact Or.inl ⟨_, by simp only [hr]; rfl⟩
      | error e => exact Or.inl ⟨_, by simp only [hr]; rfl⟩

theorem get_paper_citations_body_shape (g : GoOracle) (fm : Fmts) :
    TextListOrRaise (get_paper_citations_body g fm) := by
  intro args
  rw [get_paper_citations_body]
  cases hq : assocLookup args "paper_id" with
  | none => exact Or.inr ⟨_, rfl⟩
  | some paper_id =>
      cases hr : g.get_paper_citations paper_id with
      | ok raw => exact Or.inl ⟨_, by simp only [hr]; rfl⟩
      | error e => exact Or.inl ⟨_, by simp only [hr]; rfl⟩

theorem get_citation_network_body_shape (g : GoOracle) (fm : Fmts) :
    TextListOrRaise (get_citation_network_body g fm) := by
  intro args
  rw [get_citation_network_body]
  cases hq : assocLookup args "paper_id" with
  | none => exact Or.inr ⟨_, rfl⟩
  | some paper_id =>
      cases hr : g.get_citation_network (Py.list [paper_id])
          (pyGetD args "depth" (Py.int 1)) (pyGetD args "max_nodes" (Py.int 20)) with
      | ok raw => exact Or.inl ⟨_, by simp only [hr]; rfl⟩
      | error e => exact Or.inl ⟨_, by simp only [hr]; rfl⟩

theorem get_collaboration_network_body_shape (g : GoOracle) (fm : Fmts) :
    TextListOrRaise (get_collaboration_network_body g fm) := by
  intro args
  rw [get_collaboration_network_body]
  cases hq : assocLookup args "author_id" with
  | none => exact Or.inr ⟨_, rfl⟩
  | some author_id =>
      cases hr : g.get_collaboration_network (Py.list [author_id]) with
      | ok raw => exact Or.inl ⟨_, by simp only [hr]; rfl⟩
      | error e => exact Or.inl ⟨_, by simp only [hr]; rfl⟩

theorem get_trending_papers_body_shape (g : GoOracle) (fm : Fmts) :
    TextListOrRaise (get_trending_papers_body g fm) := by
  intro args
  rw [get_trending_papers_body]
  cases hr : g.get_trending_papers (pyGetD args "time_window" (Py.str "month"))
      (pyGetD args "limit" (Py.int 20)) with
  | ok raw => exact Or.inl ⟨_, by simp only [hr]; rfl⟩
  | error e => exact Or.inl ⟨_, by simp only [hr]; rfl⟩

theorem get_top_keywords_body_shape (g : GoOracle) (fm : Fmts) :
    TextListOrRaise (get_top_keywords_body g fm) := by
  intro args
  rw [get_top_keywords_body]
  cases hr : g.get_top_keywords with
  | ok raw => exact Or.inl ⟨_, by simp only [hr]; rfl⟩
  | error e => exact Or.inl ⟨_, by simp only [hr]; rfl⟩

theorem call_tool_of_shape {tools : ToolTable} {name : String}
    {args : List (String × Py)} {f : Handler}
    (hl : assocLookup tools name = some f)
    (hshape : ∃ s, f args = .ok (Py.list [Py.text s])) :
    (call_tool tools name args).isError = false ∧
    ∃ s, (call_tool tools name args).content = Py.list [Py.text s] := by
  obtain ⟨s, hs⟩ := hshape
  rw [call_tool, hl]
  simp only [hs]
  exact ⟨trivial, s, rfl⟩

end RegistryShape

section Fixtures

/-- A trivial formatter assignment, used to instantiate theorems that
hold for every formatter. -/
def fmW : Fmts where
  format_author_search_result := fun _ _ => ""
  format_error_response := fun _ _ => ""
  format_author_papers := fun _ _ => ""
  format_search_result := fun _ _ => ""
  format_paper_details := fun _ => ""
  format_citations := fun _ _ => ""
  format_citation_network := fun _ _ => ""
  format_collaboration_network := fun _ _ => ""
  format_trending_papers := fun _ _ => ""
  format_top_keywords := fun _ => ""

/-- A backend oracle on which every client method fails. -/
def gW : GoOracle where
  search_papers := fun _ _ _ => .error "backend down"
  get_paper_details := fun _ => .error "backend down"
  get_paper_citations := fun _ => .error "backend down"
  get_trending_papers := fun _ _ => .error "backend down"
  get_top_keywords := .error "backend down"
  search_authors := fun _ _ _ => .error "backend down"
  get_author_papers := fun _ => .error "backend down"
  get_citation_network := fun _ _ _ => .error "backend down"
  get_collaboration_network := fun _ => .error "backend down"

/-- A handler that succeeds with one text content item. -/
def okHandlerW : Handler := fun _ => .ok (Py.list [Py.text "ok"])

/-- A handler that raises. -/
def badHandlerW : Handler := fun _ => .error "boom"

/-- A handler returning a bare string, a non-conforming content shape. -/
def bareHandlerW : Handler := fun _ => .ok (Py.str "plain result")

/-- A two-tool dispatch table with one good and one raising handler. -/
def toolsW : ToolTable := [("good", okHandlerW), ("bad", badHandlerW)]

/-- A dispatch table holding the bare-string handler. -/
def toolsBareW : ToolTable := [("bare", bareHandlerW)]

/-- A client whose requests always time out. -/
def clientTimeoutW : GoServiceClient where
  base_url := "http://localhost:8080"
  http := fun _ _ _ => HttpExchange.timeout

/-- A client whose backend answers HTTP 503. -/
def clientStatusW : GoServiceClient where
  base_url := "http://localhost:8080"
  http := fun _ _ _ => HttpExchange.response 503 "service unavailable" (.ok Py.none)

/-- A client whose backend answers 200 with an undecodable body. -/
def clientDecodeW : GoServiceClient where
  base_url := "http://localhost:8080"
  http := fun _ _ _ => HttpExchange.response 200 "" (.error "Expecting value")

/-- A client whose requests raise a connection-level client error. -/
def clientHttpErrW : GoServiceClient where
  base_url := "http://localhost:8080"
  http := fun _ _ _ => HttpExchange.clientError "Cannot connect to host"

/-- A client whose backend answers 200 with an empty JSON object. -/
def clientEmptyW : GoServiceClient where
  base_url := "http://localhost:8080"
  http := fun _ _ _ => HttpExchange.response 200 "" (.ok (Py.dict []))

/-- A one-task client state holding an open session. -/
def sysW : ClientSys where
  numTasks := 1
  pcs := fun _ => Pc.fastCheck
  lockOwner := Option.none
  session := some ⟨0, false⟩
  constructed := 0

end Fixtures

section Claims

/-- C1 (corrected, counterexample): the claim "the set of names in the
listed tool definitions equals the key set of the dispatch registry" is
false on the code: `analyze_domain_trends` is listed by
`TrendTools.get_tools` (so it appears in `list_tools()` output) but
`create_tool_registry` never registers a handler for it. -/
theorem c1_catalog_counterexample :
    "analyze_domain_trends" ∈ listedToolNames ∧
    "analyze_domain_trends" ∉ tableKeys (create_tool_registry gW fmW) := by
  constructor
  · decide
  · decide

/-- C1 (amended): the registry keys and the listed names agree except
for the single orphan listing: a name is listed exactly when it is a
registry key or it is `analyze_domain_trends`; in particular every
registered tool is listed. -/
theorem c1_catalog_names (g : GoOracle) (fm : Fmts) (n : String) :
    n ∈ listedToolNames ↔
      (n ∈ tableKeys (create_tool_registry g fm) ∨
        n = "analyze_domain_trends") := by
  have hkeys : tableKeys (create_tool_registry g fm) =
      ["search_authors", "get_author_details", "get_author_papers",
       "search_papers", "get_paper_details", "get_paper_citations",
       "get_citation_network", "get_collaboration_network",
       "get_trending_papers", "get_top_keywords"] := rfl
  rw [hkeys]
  show n ∈ ["search_authors", "get_author_details", "get_author_papers",
      "get_citation_network", "get_collaboration_network", "search_papers",
      "get_paper_details", "get_paper_citations", "get_trending_papers",
      "get_trending_papers", "get_top_keywords", "analyze_domain_trends"] ↔ _
  simp only [List.mem_cons, List.not_mem_nil, or_false]
  tauto

/-- C2 (confirmed): when a registered handler raises, `call_tool`
returns a structured error result carrying the failure message (it is a
total function, so no exception escapes), and, the dispatch table being
untouched, any other registered handler that succeeds still yields its
successful result on a subsequent call. -/
theorem c2_error_containment (tools : ToolTable) (name : String)
    (h : Handler) (args : List (String × Py)) (e : String)
    (hlook : assocLookup tools name = some h) (herr : h args = .error e) :
    call_tool tools name args =
      { content := Py.list [Py.text ("Tool execution failed: " ++ e)],
        isError := true } ∧
    ∀ name2 h2 args2 v, assocLookup tools name2 = some h2 →
      h2 args2 = .ok v →
      call_tool tools name2 args2 = { content := v, isError := false } := by
  constructor
  · rw [call_tool, hlook]
    simp only [herr]
  · intro name2 h2 args2 v hl2 hok
    rw [call_tool, hl2]
    simp only [hok]

/-- C2 witness: a concrete two-tool table where the raising handler is
contained and the good one still serves. -/
theorem c2_error_containment_witness :
    call_tool toolsW "bad" [] =
      { content := Py.list [Py.text ("Tool execution failed: " ++ "boom")],
        isError := true } ∧
    ∀ name2 h2 args2 v, assocLookup toolsW name2 = some h2 →
      h2 args2 = .ok v →
      call_tool toolsW name2 args2 = { content := v, isError := false } :=
  c2_error_containment toolsW "bad" badHandlerW [] "boom" rfl rfl

/-- C5 (corrected, counterexample): the claim that `call_tool` coerces a
non-conforming return shape (a bare string) into a sequence of typed
content items is false: the bare string is passed through unchanged and
is not a typed-content list. -/
theorem c5_coercion_counterexample :
    (call_tool toolsBareW "bare" []).content = Py.str "plain result" ∧
    isTypedContentList (call_tool toolsBareW "bare" []).content = false :=
  ⟨rfl, rfl⟩

/-- C5 (amended): `call_tool` performs no normalization at all: every
successful handler return value becomes the result content unchanged,
whatever its shape. -/
theorem c5_passthrough (tools : ToolTable) (name : String) (h : Handler)
    (args : List (String × Py)) (v : Py)
    (hlook : assocLookup tools name = some h) (hok : h args = .ok v) :
    call_tool tools name args = { content := v, isError := false } := by
  rw [call_tool, hlook]
  simp only [hok]

/-- C5 witness: the pass-through at a concrete table and handler. -/
theorem c5_passthrough_witness :
    call_tool toolsW "good" [] =
      { content := Py.list [Py.text "ok"], isError := false } :=
  c5_passthrough toolsW "good" okHandlerW [] (Py.list [Py.text "ok"]) rfl rfl

/-- C6 (confirmed): for a name absent from the table, `call_tool`
returns the tool-not-found error result; its message contains the
unknown name and contains every registered name; and the result does not
depend on the handler functions at all (no default dispatch), as
replacing every handler leaves it unchanged. -/
theorem c6_unknown_tool (tools : ToolTable) (name : String)
    (args : List (String × Py))
    (habs : assocLookup tools name = Option.none) :
    call_tool tools name args =
      { content := Py.list [Py.text (unknownToolMsg name (tableKeys tools))],
        isError := true } ∧
    (∃ p q, unknownToolMsg name (tableKeys tools) = p ++ name ++ q) ∧
    (∀ k, k ∈ tableKeys tools →
      ∃ p q, unknownToolMsg name (tableKeys tools) = p ++ k ++ q) ∧
    (∀ f : Handler → Handler,
      call_tool (tools.map fun pr => (pr.1, f pr.2)) name args =
        call_tool tools name args) := by
  refine ⟨?_, (unknownToolMsg_names name (tableKeys tools)).1,
    (unknownToolMsg_names name (tableKeys tools)).2, ?_⟩
  · rw [call_tool, habs]
  · intro f
    have hL : call_tool (tools.map fun pr => (pr.1, f pr.2)) name args =
        { content := Py.list [Py.text (unknownToolMsg name (tableKeys tools))],
          isError := true } := by
      rw [call_tool, assocLookup_map_none tools name f habs, tableKeys_map]
    have hR : call_tool tools name args =
        { content := Py.list [Py.text (unknownToolMsg name (tableKeys tools))],
          isError := true } := by
      rw [call_tool, habs]
    rw [hL, hR]

/-- C6 witness: the unknown name `totally_unknown_tool` against the real
registry; the hypothesis that it is unregistered is discharged by
computation. -/
theorem c6_unknown_tool_witness :
    call_tool (create_tool_registry gW fmW) "totally_unknown_tool" [] =
      { content := Py.list [Py.text (unknownToolMsg "totally_unknown_tool"
          (tableKeys (create_tool_registry gW fmW)))],
        isError := true } ∧
    (∃ p q, unknownToolMsg "totally_unknown_tool"
        (tableKeys (create_tool_registry gW fmW)) =
      p ++ "totally_unknown_tool" ++ q) ∧
    (∀ k, k ∈ tableKeys (create_tool_registry gW fmW) →
      ∃ p q, unknownToolMsg "totally_unknown_tool"
          (tableKeys (create_tool_registry gW fmW)) = p ++ k ++ q) ∧
    (∀ f : Handler → Handler,
      call_tool ((create_tool_registry gW fmW).map fun pr => (pr.1, f pr.2))
          "totally_unknown_tool" [] =
        call_tool (create_tool_registry gW fmW) "totally_unknown_tool" []) :=
  c6_unknown_tool (create_tool_registry gW fmW) "totally_unknown_tool" [] rfl

/-- C10 (confirmed): `get_citation_network` on an empty seed list
returns the empty graph identically for every backend (no request is
issued), and on a non-empty seed list the result depends only on the
first seed, not on the remaining seeds or on `direction`; likewise
`get_collaboration_network` with the author list and `time_range`. -/
theorem c10_network_first_seed_only :
    (∀ (c c2 : GoServiceClient) (depth : Int) (direction : String)
        (max_nodes : Int),
      c.get_citation_network [] depth direction max_nodes =
        .ok (Py.dict [("nodes", Py.list []), ("edges", Py.list [])]) ∧
      c.get_citation_network [] depth direction max_nodes =
        c2.get_citation_network [] depth direction max_nodes) ∧
    (∀ (c : GoServiceClient) (p : String) (rest rest2 : List String)
        (depth : Int) (dir1 dir2 : String) (max_nodes : Int),
      c.get_citation_network (p :: rest) depth dir1 max_nodes =
        c.get_citation_network (p :: rest2) depth dir2 max_nodes) ∧
    (∀ (c c2 : GoServiceClient) (tr : Option String),
      c.get_collaboration_network [] tr =
        .ok (Py.dict [("nodes", Py.list []), ("edges", Py.list [])]) ∧
      c.get_collaboration_network [] tr =
        c2.get_collaboration_network [] tr) ∧
    (∀ (c : GoServiceClient) (a : String) (rest rest2 : List String)
        (tr tr2 : Option String),
      c.get_collaboration_network (a :: rest) tr =
        c.get_collaboration_network (a :: rest2) tr2) :=
  ⟨fun _ _ _ _ _ => ⟨rfl, rfl⟩, fun _ _ _ _ _ _ _ _ => rfl,
   fun _ _ _ => ⟨rfl, rfl⟩, fun _ _ _ _ _ _ => rfl⟩

/-- C3 (corrected, counterexample): the claim that a timed-out request
fails with a timeout-kind error distinguishable by kind from the
HTTP-status, JSON-decode and client-connection failures is false: all
four paths of `_make_request` raise the same `ServiceConnectionError`
kind, and the timeout path does not raise a `TimeoutError`. -/
theorem c3_error_kind_counterexample :
    errKindOf (clientTimeoutW.make_request "GET" "/papers" []) =
      errKindOf (clientStatusW.make_request "GET" "/papers" []) ∧
    errKindOf (clientTimeoutW.make_request "GET" "/papers" []) =
      errKindOf (clientDecodeW.make_request "GET" "/papers" []) ∧
    errKindOf (clientTimeoutW.make_request "GET" "/papers" []) =
      errKindOf (clientHttpErrW.make_request "GET" "/papers" []) ∧
    errKindOf (clientTimeoutW.make_request "GET" "/papers" []) =
      some "ServiceConnectionError" ∧
    errKindOf (clientTimeoutW.make_request "GET" "/papers" []) ≠
      some "TimeoutError" := by
  refine ⟨rfl, rfl, rfl, rfl, ?_⟩
  decide

/-- C3 (amended): a timed-out `request()` fails with a
`ServiceConnectionError` whose message starts "Request timeout: " and
names the URL; the HTTP-status, JSON-decode and client-connection
failures produce `ServiceConnectionError` messages with the prefixes
"Go service request failed: ", "Invalid JSON response: " and
"HTTP client error: "; the four cases are distinguishable by message
prefix, not by exception kind. -/
theorem c3_error_messages (c : GoServiceClient) (method endpoint : String)
    (params : List (String × Py)) :
    (c.http method endpoint params = HttpExchange.timeout →
      c.make_request method endpoint params =
        .error (GoErr.serviceConnection
          ("Request timeout: " ++ c.base_url ++ endpoint))) ∧
    (∀ status bodyText jsonBody,
      c.http method endpoint params =
        HttpExchange.response status bodyText jsonBody →
      400 ≤ status →
      c.make_request method endpoint params =
        .error (GoErr.serviceConnection
          ("Go service request failed: " ++ toString status ++
            " - " ++ bodyText))) ∧
    (∀ status bodyText e,
      c.http method endpoint params =
        HttpExchange.response status bodyText (.error e) →
      ¬ 400 ≤ status →
      c.make_request method endpoint params =
        .error (GoErr.serviceConnection ("Invalid JSON response: " ++ e))) ∧
    (∀ m, c.http method endpoint params = HttpExchange.clientError m →
      c.make_request method endpoint params =
        .error (GoErr.serviceConnection ("HTTP client error: " ++ m))) ∧
    (∀ s t : String,
      "Request timeout: " ++ s ≠ "Go service request failed: " ++ t ∧
      "Request timeout: " ++ s ≠ "Invalid JSON response: " ++ t ∧
      "Request timeout: " ++ s ≠ "HTTP client error: " ++ t) := by
  refine ⟨?_, ?_, ?_, ?_, ?_⟩
  · intro h
    rw [GoServiceClient.make_request, h]
  · intro status bodyText jsonBody h hge
    rw [GoServiceClient.make_request, h]
    simp only [if_pos hge]
  · intro status bodyText e h hlt
    rw [GoServiceClient.make_request, h]
    simp only [if_neg hlt]
  · intro m h
    rw [GoServiceClient.make_request, h]
  · intro s t
    exact ⟨@string_ne_of_head_ne "Request timeout: "
        "Go service request failed: " 'R' 'G' rfl rfl (by decide) s t,
      @string_ne_of_head_ne "Request timeout: "
        "Invalid JSON response: " 'R' 'I' rfl rfl (by decide) s t,
      @string_ne_of_head_ne "Request timeout: "
        "HTTP client error: " 'R' 'H' rfl rfl (by decide) s t⟩

/-- C3 witness: the timeout message at a concrete always-timeout client. -/
theorem c3_error_messages_witness :
    clientTimeoutW.make_request "GET" "/papers" [] =
      .error (GoErr.serviceConnection
        ("Request timeout: " ++ clientTimeoutW.base_url ++ "/papers")) :=
  (c3_error_messages clientTimeoutW "GET" "/papers" []).1 rfl

/-- C4 (corrected, counterexample): the claim "search_papers always
returns an object containing a papers list" is false: on a backend that
returns the empty JSON object, `search_papers` returns it unchanged,
with no `papers` key. -/
theorem c4_defaults_counterexample :
    clientEmptyW.search_papers (some "ml") Option.none "relevance" 5 0 =
      .ok (Py.dict []) ∧
    pyContainsKey (Py.dict []) "papers" = false :=
  ⟨rfl, rfl⟩

/-- C4 (amended): `search_papers` passes the decoded backend object
through unchanged (so it contains a `papers` list only when the backend
supplies one), while `get_top_keywords` does normalize: every successful
normalization result contains the `keywords` and `count` keys, and when
the backend omits both they are filled with the empty list and zero. -/
theorem c4_normalization :
    (∀ (c : GoServiceClient) (query : Option String)
        (filters : Option (List (String × Py))) (sort_by : String)
        (limit offset : Int) (v : Py),
      c.make_request "GET" "/papers" (search_papers_params query filters limit) =
        .ok v →
      c.search_papers query filters sort_by limit offset = .ok v) ∧
    (∀ r v, normalize_top_keywords r = .ok v →
      pyContainsKey v "keywords" = true ∧ pyContainsKey v "count" = true) ∧
    (∀ kvs : List (String × Py),
      assocLookup kvs "keywords" = Option.none →
      assocLookup kvs "count" = Option.none →
      normalize_top_keywords (Py.dict kvs) =
        .ok (Py.dict (kvs ++ [("keywords", Py.list []),
          ("count", Py.int 0)]))) := by
  refine ⟨?_, ?_, ?_⟩
  · intro c query filters sort_by limit offset v h
    exact h
  · intro r v h
    cases r
    · simp [normalize_top_keywords] at h
    · simp [normalize_top_keywords] at h
    · simp [normalize_top_keywords] at h
    · simp [normalize_top_keywords] at h
    · simp [normalize_top_keywords] at h
    · rename_i kvs
      rw [normalize_top_keywords] at h
      cases hn : pyLen (pyGetD (pySetdefault kvs "keywords" (Py.list []))
          "keywords" (Py.list [])) with
      | error err => simp only [hn] at h; exact Except.noConfusion h
      | ok n =>
          simp only [hn] at h
          cases hk : iterKeywords (pyGetD
              (pySetdefault (pySetdefault kvs "keywords" (Py.list []))
                "count" (Py.int (Int.ofNat n)))
              "keywords" (Py.list [])) with
          | error err => simp only [hk] at h; exact Except.noConfusion h
          | ok newkw =>
              simp only [hk] at h
              have hv : Py.dict (pySet
                  (pySetdefault (pySetdefault kvs "keywords" (Py.list []))
                    "count" (Py.int (Int.ofNat n)))
                  "keywords" newkw) = v := by injection h
              subst hv
              constructor
              · show (assocLookup (pySet _ "keywords" newkw)
                  "keywords").isSome = true
                rw [assocLookup_pySet_same]
                rfl
              · show (assocLookup (pySet _ "keywords" newkw)
                  "count").isSome = true
                rw [assocLookup_pySet_other _ _ _ _ (by decide)]
                obtain ⟨w, hw⟩ := assocLookup_pySetdefault_self
                  (pySetdefault kvs "keywords" (Py.list [])) "count"
                  (Py.int (Int.ofNat n))
                rw [hw]
                rfl
    · simp [normalize_top_keywords] at h
  · intro kvs h1 h2
    have e1 : pySetdefault kvs "keywords" (Py.list []) =
        kvs ++ [("keywords", Py.list [])] := by
      rw [pySetdefault, h1]
    have e2 : assocLookup (kvs ++ [("keywords", Py.list [])]) "keywords" =
        some (Py.list []) := by
      rw [assocLookup_append_none kvs _ _ h1]
      rfl
    have e3 : assocLookup (kvs ++ [("keywords", Py.list [])]) "count" =
        Option.none := by
      rw [assocLookup_append_none kvs _ _ h2]
      rfl
    have e4 : pySetdefault (kvs ++ [("keywords", Py.list [])]) "count"
        (Py.int (Int.ofNat 0)) =
        (kvs ++ [("keywords", Py.list [])]) ++ [("count", Py.int (Int.ofNat 0))] := by
      rw [pySetdefault, e3]
    have e5 : assocLookup ((kvs ++ [("keywords", Py.list [])]) ++
        [("count", Py.int (Int.ofNat 0))]) "keywords" = some (Py.list []) := by
      rw [assocLookup_append_single_other _ _ _ _ (by decide), e2]
    have e6 : pySet ((kvs ++ [("keywords", Py.list [])]) ++
        [("count", Py.int (Int.ofNat 0))]) "keywords" (Py.list []) =
        kvs ++ [("keywords", Py.list []), ("count", Py.int 0)] := by
      rw [List.append_assoc, pySet_append_absent kvs _ _ _ h1]
      rfl
    rw [normalize_top_keywords, e1, pyGetD, e2]
    show (match pyLen (Py.list []) with
      | .error err => Except.error err
      | .ok n =>
          match iterKeywords (pyGetD
              (pySetdefault (kvs ++ [("keywords", Py.list [])])
                "count" (Py.int (Int.ofNat n)))
              "keywords" (Py.list [])) with
          | .error err => Except.error err
          | .ok newkw =>
              .ok (Py.dict (pySet
                (pySetdefault (kvs ++ [("keywords", Py.list [])])
                  "count" (Py.int (Int.ofNat n)))
                "keywords" newkw))) = _
    show (match iterKeywords (pyGetD
        (pySetdefault (kvs ++ [("keywords", Py.list [])])
          "count" (Py.int (Int.ofNat 0)))
        "keywords" (Py.list [])) with
      | .error err => Except.error err
      | .ok newkw =>
          .ok (Py.dict (pySet
            (pySetdefault (kvs ++ [("keywords", Py.list [])])
              "count" (Py.int (Int.ofNat 0)))
            "keywords" newkw))) = _
    rw [e4, pyGetD, e5]
    show Except.ok (Py.dict (pySet ((kvs ++ [("keywords", Py.list [])]) ++
        [("count", Py.int (Int.ofNat 0))]) "keywords" (Py.list []))) = _
    rw [e6]

/-- C4 witness: the pass-through and the default-filling at concrete
inputs (the backend returning the empty object in both cases). -/
theorem c4_normalization_witness :
    clientEmptyW.search_papers (some "ml") Option.none "relevance" 5 0 =
      .ok (Py.dict []) ∧
    normalize_top_keywords (Py.dict []) =
      .ok (Py.dict [("keywords", Py.list []), ("count", Py.int 0)]) :=
  ⟨c4_normalization.1 clientEmptyW (some "ml") Option.none "relevance" 5 0
      (Py.dict []) rfl,
    c4_normalization.2.2 [] rfl rfl⟩

/-- C7 (confirmed): starting from N fresh concurrent `connect()` calls
with no session, every interleaving constructs at most one session; any
interleaving that finishes all calls has constructed exactly one; and
from any reachable state there is a continuation finishing all N calls
with exactly one construction (all calls complete, construction assumed
to succeed). -/
theorem c7_single_construction (n : Nat) (hn : 1 ≤ n) :
    (∀ sched : List Nat, (run (initSys n) sched).constructed ≤ 1) ∧
    (∀ sched : List Nat, allFinished (run (initSys n) sched) →
      (run (initSys n) sched).constructed = 1) ∧
    (∀ sched : List Nat, ∃ ext : List Nat,
      allFinished (run (run (initSys n) sched) ext) ∧
      (run (run (initSys n) sched) ext).constructed = 1) := by
  have hconstr1 : ∀ s : ClientSys, Inv s → s.numTasks = n → allFinished s →
      s.constructed = 1 := by
    intro s hs hnum hf
    have h0 : (0 : Nat) < s.numTasks := by omega
    have hv : validSession s = true := hs.finishedValid 0 h0 (hf 0 h0)
    cases hsess : s.session with
    | none => simp [validSession, hsess] at hv
    | some sess => exact (hs.sessionOpen sess hsess).2
  refine ⟨fun sched => (inv_run (inv_init n) sched).constructedLe,
    fun sched hf => hconstr1 _ (inv_run (inv_init n) sched)
      (run_numTasks sched (initSys n)) hf,
    fun sched => ?_⟩
  obtain ⟨ext, hext⟩ := reach_finished (inv_run (inv_init n) sched)
  exact ⟨ext, hext, hconstr1 _ (inv_run (inv_run (inv_init n) sched) ext)
    ((run_numTasks ext _).trans (run_numTasks sched _)) hext⟩

/-- C7 witness: the guarantees at N = 2. -/
theorem c7_single_construction_witness :
    1 ≤ 2 ∧ ∀ sched : List Nat, (run (initSys 2) sched).constructed ≤ 1 :=
  ⟨by decide, (c7_single_construction 2 (by decide)).1⟩

/-- C8 (confirmed): a `connect()` call that finds a valid open session
returns immediately on the fast path: one step finishes the call, and
the session reference, the lock, the construction count, and every other
task are unchanged. -/
theorem c8_connect_idempotent (s : ClientSys) (i : Nat)
    (hi : i < s.numTasks) (hpc : s.pcs i = Pc.fastCheck)
    (hv : validSession s = true) :
    (step s i).session = s.session ∧
    (step s i).lockOwner = s.lockOwner ∧
    (step s i).constructed = s.constructed ∧
    (step s i).numTasks = s.numTasks ∧
    (step s i).pcs i = Pc.finished ∧
    ∀ j, j ≠ i → (step s i).pcs j = s.pcs j := by
  rw [step_of_fastCheck hi hpc, if_pos hv]
  exact ⟨rfl, rfl, rfl, rfl, setPc_same s.pcs i Pc.finished,
    fun j hj => setPc_other s.pcs i Pc.finished hj⟩

/-- C8 witness: the no-op `connect()` at a concrete one-task client
holding an open session. -/
theorem c8_connect_idempotent_witness :
    0 < sysW.numTasks ∧ sysW.pcs 0 = Pc.fastCheck ∧
    validSession sysW = true ∧
    ((step sysW 0).session = sysW.session ∧
     (step sysW 0).lockOwner = sysW.lockOwner ∧
     (step sysW 0).constructed = sysW.constructed ∧
     (step sysW 0).numTasks = sysW.numTasks ∧
     (step sysW 0).pcs 0 = Pc.finished ∧
     ∀ j, j ≠ 0 → (step sysW 0).pcs j = sysW.pcs j) :=
  ⟨by decide, rfl, rfl, c8_connect_idempotent sysW 0 (by decide) rfl rfl⟩

/-- C9 (confirmed): every handler in the dispatch registry is the
`handle_tool_error`-wrapped body (by construction of
`create_tool_registry`), so a registered call never reaches the
Dispatcher's exception branch: for every oracle, formatter, tool name in
the registry and argument dict, `call_tool` returns `isError = false`
with a one-item text content list; in particular when the backend
`search_papers` call fails, the result is flagged as success and its
text carries the failure message. -/
theorem c9_registered_handlers_contained (g : GoOracle) (fm : Fmts)
    (name : String) (args : List (String × Py))
    (hmem : name ∈ tableKeys (create_tool_registry g fm)) :
    ((call_tool (create_tool_registry g fm) name args).isError = false ∧
      ∃ s, (call_tool (create_tool_registry g fm) name args).content =
        Py.list [Py.text s]) ∧
    (∀ q e, assocLookup args "query" = some q →
      g.search_papers q (pyGetD args "filters" (Py.dict []))
        (pyGetD args "limit" (Py.int 20)) = .error e →
      call_tool (create_tool_registry g fm) "search_papers" args =
        { content := Py.list [Py.text ("搜索失败: " ++ e)],
          isError := false }) := by
  constructor
  · have hmem2 : name ∈ ["search_authors", "get_author_details",
        "get_author_papers", "search_papers", "get_paper_details",
        "get_paper_citations", "get_citation_network",
        "get_collaboration_network", "get_trending_papers",
        "get_top_keywords"] := hmem
    simp only [List.mem_cons, List.not_mem_nil, or_false] at hmem2
    rcases hmem2 with rfl | rfl | rfl | rfl | rfl | rfl | rfl | rfl | rfl | rfl
    · exact call_tool_of_shape rfl
        (handle_tool_error_total (search_authors_body_shape g fm) args)
    · exact call_tool_of_shape rfl
        (handle_tool_error_total (get_author_details_body_shape g fm) args)
    · exact call_tool_of_shape rfl
        (handle_tool_error_total (get_author_papers_body_shape g fm) args)
    · exact call_tool_of_shape rfl
        (handle_tool_error_total (search_papers_body_shape g fm) args)
    · exact call_tool_of_shape rfl
        (handle_tool_error_total (get_paper_details_body_shape g fm) args)
    · exact call_tool_of_shape rfl
        (handle_tool_error_total (get_paper_citations_body_shape g fm) args)
    · exact call_tool_of_shape rfl
        (handle_tool_error_total (get_citation_network_body_shape g fm) args)
    · exact call_tool_of_shape rfl
        (handle_tool_error_total (get_collaboration_network_body_shape g fm) args)
    · exact call_tool_of_shape rfl
        (handle_tool_error_total (get_trending_papers_body_shape g fm) args)
    · exact call_tool_of_shape rfl
        (handle_tool_error_total (get_top_keywords_body_shape g fm) args)
  · intro q e hq herr
    have hl : assocLookup (create_tool_registry g fm) "search_papers" =
        some (handle_tool_error (search_papers_body g fm)) := rfl
    have hb : search_papers_body g fm args =
        .ok (Py.list [Py.text ("搜索失败: " ++ e)]) := by
      simp only [search_papers_body, hq, herr]
    rw [call_tool, hl]
    simp only [handle_tool_error, hb]

/-- C9 witness: the `search_papers` tool against a failing backend:
the dispatcher result is flagged as success and carries the failure
text. -/
theorem c9_registered_handlers_contained_witness :
    "search_papers" ∈ tableKeys (create_tool_registry gW fmW) ∧
    assocLookup [("query", Py.str "ml")] "query" = some (Py.str "ml") ∧
    gW.search_papers (Py.str "ml")
      (pyGetD [("query", Py.str "ml")] "filters" (Py.dict []))
      (pyGetD [("query", Py.str "ml")] "limit" (Py.int 20)) =
        .error "backend down" ∧
    call_tool (create_tool_registry gW fmW) "search_papers"
        [("query", Py.str "ml")] =
      { content := Py.list [Py.text ("搜索失败: " ++ "backend down")],
        isError := false } :=
  ⟨by decide, rfl, rfl,
    (c9_registered_handlers_contained gW fmW "search_papers"
      [("query", Py.str "ml")] (by decide)).2 (Py.str "ml") "backend down"
      rfl rfl⟩

end Claims

end OpenResearch
